import Mathlib

/-!
Shallow embedding of the `dasan` document pipeline
(`split_pdf.py`, `batch_ocr.py`, `merge_ocr_results.py`).

Strings are compared by Unicode code point, as Python compares `str`
values; directories are modelled as association lists from filename to
file content; the OCR network boundary is an oracle mapping the index of
a network call to its outcome.
-/

set_option maxRecDepth 8000

/-- Code-point comparison of character lists: Python's `<=` on `str`. -/
def charListLe : List Char → List Char → Bool
  | [], _ => true
  | _ :: _, [] => false
  | a :: as, b :: bs =>
    if a.toNat < b.toNat then true
    else if b.toNat < a.toNat then false
    else charListLe as bs

/-- Code-point comparison of character lists: Python's `<` on `str`. -/
def charListLt : List Char → List Char → Bool
  | [], [] => false
  | [], _ :: _ => true
  | _ :: _, [] => false
  | a :: as, b :: bs =>
    if a.toNat < b.toNat then true
    else if b.toNat < a.toNat then false
    else charListLt as bs

/-- Python string `<=` (lexicographic on code points). -/
def strLe (a b : String) : Bool := charListLe a.data b.data

/-- Python string `<` (lexicographic on code points). -/
def strLt (a b : String) : Bool := charListLt a.data b.data

/-- Python `s.endswith(suffix)`. -/
def strEndsWith (s suffix : String) : Bool := suffix.data.isSuffixOf s.data

/-- Insert a string into a list kept in `strLe` order. -/
def orderedInsert (x : String) : List String → List String
  | [] => [x]
  | y :: ys => if strLe x y then x :: y :: ys else y :: orderedInsert x ys

/-- Python `sorted` on a list of strings (any sort w.r.t. the total
code-point order yields the same list, so insertion sort is faithful). -/
def sortFiles : List String → List String
  | [] => []
  | x :: xs => orderedInsert x (sortFiles xs)

/-- A directory: an association list from filename to content. -/
def lookupFs : List (String × String) → String → Option String
  | [], _ => none
  | (k, v) :: rest, key => if k = key then some v else lookupFs rest key

/-- Writing a file (`open(path, "w")`): replace the entry if the name is
already present, otherwise create it. -/
def writeFs : List (String × String) → String → String → List (String × String)
  | [], key, v => [(key, v)]
  | (k, w) :: rest, key, v =>
    if k = key then (key, v) :: rest else (k, w) :: writeFs rest key v

/-- Python `f"{n:03d}"`: the decimal digits of `n`, zero-padded on the
left to at least three characters (never truncated). -/
def pad3 (n : Nat) : String :=
  if n < 1000 then
    String.mk [Nat.digitChar (n / 100), Nat.digitChar (n / 10 % 10), Nat.digitChar (n % 10)]
  else Nat.repr n

/-- Filename of the `n`-th (1-based) page produced by the splitter:
`f"page_{n:03d}.pdf"` in `split_pdf`. -/
def pdfName (n : Nat) : String := "page_" ++ pad3 n ++ ".pdf"

/-- The per-page write log of `split_pdf`: page `i` (0-based) goes to
`pdfName (i+1)`, in input order. -/
def splitFiles {α : Type} : List α → Nat → List (String × α)
  | [], _ => []
  | p :: rest, idx => (pdfName idx, p) :: splitFiles rest (idx + 1)

/-- Result of `split_pdf`: the output directory is ensured to exist
(`os.makedirs(..., exist_ok=True)`), one file is written per page, and
the total page count is returned. -/
structure SplitResult (α : Type) where
  dirCreated : Bool
  files : List (String × α)
  total : Nat
deriving Repr

/-- Shallow embedding of `split_pdf` on the list of pages of a readable
input PDF. -/
def split_pdf {α : Type} (pages : List α) : SplitResult α :=
  { dirCreated := true, files := splitFiles pages 1, total := pages.length }

/-- The fields of a parsed JSON response that `batch_ocr.py` reads:
`OCRExitCode`, `ParsedResults` (each element standing for its
`ParsedText` string), and `ErrorMessage`. -/
structure OcrJson where
  OCRExitCode : Option Int
  ParsedResults : List String
  ErrorMessage : Option String
deriving DecidableEq, Repr

/-- The dictionary returned by `ocr_single_pdf`: either the parsed JSON
body, or — when `response.json()` raises — the fallback dictionary
`\x7b"error": "Invalid JSON response", "text": response.text\x7d`. -/
inductive OcrDict where
  | json (j : OcrJson)
  | invalid (raw : String)
deriving DecidableEq, Repr

/-- Outcome of one network call to the OCR endpoint, as seen by the
`try` block of `process_single_file`. -/
inductive NetResult where
  | resp (d : OcrDict)
  | timeout
  | exn (msg : String)
deriving DecidableEq, Repr

/-- How one iteration of the retry loop of `process_single_file`
classifies its network call: the success branch, the structured-error
branch (its logged message), the `requests.exceptions.Timeout` handler,
or the generic `except Exception` handler (with `str(e)`). -/
inductive AttemptOutcome where
  | success (text : String)
  | apiError (msg : String)
  | timeoutErr
  | exnErr (msg : String)
deriving DecidableEq, Repr

/-- One iteration of the retry loop of `process_single_file` on the
result of `ocr_single_pdf`.  A parsed body with `OCRExitCode == 1` but
an empty `ParsedResults` list hits `result["ParsedResults"][0]`, which
raises `IndexError("list index out of range")`, caught by the generic
`except Exception` handler. -/
def attemptOnce : NetResult → AttemptOutcome
  | .timeout => .timeoutErr
  | .exn msg => .exnErr msg
  | .resp (.invalid _) => .apiError "Invalid JSON response"
  | .resp (.json j) =>
    if j.OCRExitCode = some 1 then
      match j.ParsedResults with
      | [] => .exnErr "list index out of range"
      | t :: _ => .success t
    else .apiError (j.ErrorMessage.getD "未知错误")

/-- Whether an attempt took the success branch. -/
def isSuccess : AttemptOutcome → Bool
  | .success _ => true
  | _ => false

/-- Result of `process_single_file` on one page: the output directory
afterwards, the returned boolean, the number of network calls made, whether
the page was skipped, and the back-off waits slept between attempts. -/
structure PageOutcome where
  fs : List (String × String)
  ok : Bool
  calls : Nat
  skipped : Bool
  waits : List Nat
deriving DecidableEq, Repr

/-- The retry loop `for retry in range(self.max_retries)`: `k` is the
0-based index of the current attempt, the second argument the number of
attempts left.  On success the text of the first parsed result is
written to `path`; on an API error with retries remaining the driver
sleeps `(retry+1)*2` seconds, on a timeout or exception a flat `5`. -/
def tryLoop (fs : List (String × String)) (path : String) (api : Nat → NetResult) :
    Nat → Nat → PageOutcome
  | _, 0 => { fs := fs, ok := false, calls := 0, skipped := false, waits := [] }
  | k, r + 1 =>
    match attemptOnce (api k) with
    | .success t =>
      { fs := writeFs fs path t, ok := true, calls := 1, skipped := false, waits := [] }
    | .apiError _ =>
      let rest := tryLoop fs path api (k + 1) r
      { fs := rest.fs, ok := rest.ok, calls := rest.calls + 1, skipped := false,
        waits := (if 0 < r then [(k + 1) * 2] else []) ++ rest.waits }
    | .timeoutErr =>
      let rest := tryLoop fs path api (k + 1) r
      { fs := rest.fs, ok := rest.ok, calls := rest.calls + 1, skipped := false,
        waits := (if 0 < r then [5] else []) ++ rest.waits }
    | .exnErr _ =>
      let rest := tryLoop fs path api (k + 1) r
      { fs := rest.fs, ok := rest.ok, calls := rest.calls + 1, skipped := false,
        waits := (if 0 < r then [5] else []) ++ rest.waits }

/-- Shallow embedding of `process_single_file`: if the output text file
already exists the page is skipped with no network call; otherwise the
retry loop runs with up to `mr` attempts. -/
def process_single_file (fs : List (String × String)) (path : String)
    (api : Nat → NetResult) (mr : Nat) : PageOutcome :=
  if (lookupFs fs path).isSome then
    { fs := fs, ok := true, calls := 0, skipped := true, waits := [] }
  else
    tryLoop fs path api 0 mr

/-- Terminal state of a page in the driver's state machine. -/
inductive PageStatus where
  | skipped
  | succeeded
  | failed
deriving DecidableEq, Repr

/-- Classify a `process_single_file` outcome as a terminal page state. -/
def pageStatus (r : PageOutcome) : PageStatus :=
  if r.skipped then .skipped else if r.ok then .succeeded else .failed

/-- Output text file name for a page file: `f"\x7bpdf_file\x7d.txt"`
(inside the fixed `ocr_text` output directory, which the association
list models). -/
def txtName (f : String) : String := f ++ ".txt"

/-- Result of the page loop of `batch_process`. -/
structure RunResult where
  fs : List (String × String)
  successCount : Nat
  failedCount : Nat
  calls : Nat
  statuses : List (String × PageStatus)
deriving DecidableEq, Repr

/-- The `for idx, pdf_file in enumerate(pdf_files, ...)` loop of
`batch_process`: pages are processed strictly in order, each page's
result increments exactly one of the two counters, and `base` threads
the global index of the next network call. -/
def runPages (api : Nat → NetResult) (mr : Nat) :
    List String → List (String × String) → Nat → RunResult
  | [], fs, _ => { fs := fs, successCount := 0, failedCount := 0, calls := 0, statuses := [] }
  | f :: rest, fs, base =>
    let r := process_single_file fs (txtName f) (fun n => api (base + n)) mr
    let b := runPages api mr rest r.fs (base + r.calls)
    { fs := b.fs,
      successCount := (if r.ok then 1 else 0) + b.successCount,
      failedCount := (if r.ok then 0 else 1) + b.failedCount,
      calls := r.calls + b.calls,
      statuses := (f, pageStatus r) :: b.statuses }

/-- Result of `batch_process`: `noFiles` records the early-return branch
that logs the no-PDF-files-found error. -/
structure BatchResult where
  fs : List (String × String)
  noFiles : Bool
  total : Nat
  successCount : Nat
  failedCount : Nat
  calls : Nat
  statuses : List (String × PageStatus)
deriving DecidableEq, Repr

/-- Page discovery of `batch_process`:
`sorted([f for f in os.listdir(pdf_dir) if f.endswith(".pdf")])`. -/
def discover (listing : List String) : List String :=
  sortFiles (listing.filter (fun f => strEndsWith f ".pdf"))

/-- Shallow embedding of `batch_process` over a directory listing, an
initial output directory, a network oracle and a retry bound. -/
def batch_process (listing : List String) (fs : List (String × String))
    (api : Nat → NetResult) (mr : Nat) : BatchResult :=
  let files := discover listing
  if files.isEmpty then
    { fs := fs, noFiles := true, total := 0, successCount := 0, failedCount := 0,
      calls := 0, statuses := [] }
  else
    let b := runPages api mr files fs 0
    { fs := b.fs, noFiles := false, total := files.length,
      successCount := b.successCount, failedCount := b.failedCount,
      calls := b.calls, statuses := b.statuses }

/-- The separator row `'='*60` used by the annotated merger. -/
def eqBanner : String := String.mk (List.replicate 60 '=')

/-- Reading a listed file back from the directory (always present when
the name came from the directory's own listing). -/
def readFile (dir : List (String × String)) (f : String) : String :=
  (lookupFs dir f).getD ""

/-- The four strings the annotated merger appends for one file:
a banner row, a `📄 文件: <name>` line, a second banner row, then the
file's content. -/
def mergePiece (dir : List (String × String)) (f : String) : String :=
  ("\n" ++ eqBanner ++ "\n") ++ ("📄 文件: " ++ f ++ "\n") ++ (eqBanner ++ "\n") ++ readFile dir f

/-- Text-file discovery shared by both mergers:
`sorted([f for f in os.listdir(input_dir) if f.endswith(".txt")])`. -/
def discoverTxt (dir : List (String × String)) : List String :=
  sortFiles ((dir.map Prod.fst).filter (fun f => strEndsWith f ".txt"))

/-- Shallow embedding of `merge_ocr_results` (annotated mode): `none`
models the no-files-found early return (error printed, nothing written);
otherwise the written content and the reported merged-file count. -/
def merge_ocr_results (dir : List (String × String)) : Option (String × Nat) :=
  let txt_files := discoverTxt dir
  if txt_files.isEmpty then none
  else some (String.join (txt_files.map (mergePiece dir)), txt_files.length)

/-- Shallow embedding of `merge_ocr_results_clean` (plain mode): each
file's content followed by `"\n\n"`. -/
def merge_ocr_results_clean (dir : List (String × String)) : Option (String × Nat) :=
  let txt_files := discoverTxt dir
  if txt_files.isEmpty then none
  else some (String.join (txt_files.map (fun f => readFile dir f ++ "\n\n")), txt_files.length)

lemma digitChar_toNat_eq : ∀ d : Nat, d < 10 → (Nat.digitChar d).toNat = 48 + d := by decide

lemma charListLt_cons_self (c : Char) (as bs : List Char) :
    charListLt (c :: as) (c :: bs) = charListLt as bs := by
  simp [charListLt]

lemma charListLt_head {a b : Char} (h : a.toNat < b.toNat) (as bs : List Char) :
    charListLt (a :: as) (b :: bs) = true := by
  simp [charListLt, h]

lemma charListLe_of_lt : ∀ as bs : List Char, charListLt as bs = true → charListLe as bs = true := by
  intro as
  induction as with
  | nil => intro bs _; cases bs <;> simp [charListLe]
  | cons a as ih =>
    intro bs h
    cases bs with
    | nil => simp [charListLt] at h
    | cons b bs =>
      by_cases h1 : a.toNat < b.toNat
      · simp [charListLe, h1]
      · by_cases h2 : b.toNat < a.toNat
        · simp [charListLt, h1, h2] at h
        · simp [charListLt, h1, h2] at h
          simp [charListLe, h1, h2]
          exact ih bs h

lemma strLe_of_lt {a b : String} (h : strLt a b = true) : strLe a b = true :=
  charListLe_of_lt a.data b.data h

lemma pdfName_data (n : Nat) (h : n < 1000) :
    (pdfName n).data =
      'p' :: 'a' :: 'g' :: 'e' :: '_' :: Nat.digitChar (n / 100) ::
        Nat.digitChar (n / 10 % 10) :: Nat.digitChar (n % 10) :: '.' :: 'p' :: 'd' :: 'f' :: [] := by
  unfold pdfName pad3
  rw [if_pos h]
  rfl

lemma pdfName_lt_of_lt : ∀ i j : Nat, i < j → j ≤ 999 → strLt (pdfName i) (pdfName j) = true := by
  intro i j hij hj
  have hi : i < 1000 := by omega
  have hj' : j < 1000 := by omega
  rw [strLt, pdfName_data i hi, pdfName_data j hj', charListLt_cons_self, charListLt_cons_self,
    charListLt_cons_self, charListLt_cons_self, charListLt_cons_self]
  have hd1 : i / 100 < 10 := by omega
  have hd2 : j / 100 < 10 := by omega
  have hd3 : i / 10 % 10 < 10 := by omega
  have hd4 : j / 10 % 10 < 10 := by omega
  have hd5 : i % 10 < 10 := by omega
  have hd6 : j % 10 < 10 := by omega
  rcases (by omega :
      i / 100 < j / 100 ∨
        (i / 100 = j / 100 ∧
          (i / 10 % 10 < j / 10 % 10 ∨
            (i / 10 % 10 = j / 10 % 10 ∧ i % 10 < j % 10)))) with h | ⟨h1, h | ⟨h2, h3⟩⟩
  · exact charListLt_head (by rw [digitChar_toNat_eq _ hd1, digitChar_toNat_eq _ hd2]; omega) _ _
  · rw [h1, charListLt_cons_self]
    exact charListLt_head (by rw [digitChar_toNat_eq _ hd3, digitChar_toNat_eq _ hd4]; omega) _ _
  · rw [h1, h2, charListLt_cons_self, charListLt_cons_self]
    exact charListLt_head (by rw [digitChar_toNat_eq _ hd5, digitChar_toNat_eq _ hd6]; omega) _ _

lemma orderedInsert_of_le (x y : String) (ys : List String) (h : strLe x y = true) :
    orderedInsert x (y :: ys) = x :: y :: ys := by
  simp [orderedInsert, h]

lemma sortFiles_of_chain :
    ∀ l : List String, l.Chain' (fun a b => strLe a b = true) → sortFiles l = l := by
  intro l
  induction l with
  | nil => intro _; rfl
  | cons x xs ih =>
    intro h
    cases xs with
    | nil => rfl
    | cons y ys =>
      rw [List.chain'_cons] at h
      calc sortFiles (x :: y :: ys) = orderedInsert x (sortFiles (y :: ys)) := rfl
        _ = orderedInsert x (y :: ys) := by rw [ih h.2]
        _ = x :: y :: ys := orderedInsert_of_le x y ys h.1

lemma chain_pageNames (N : Nat) (hN : N ≤ 999) :
    ((List.range N).map (fun k => pdfName (k + 1))).Chain' (fun a b => strLe a b = true) := by
  rw [List.chain'_map]
  cases N with
  | zero => simp
  | succ n =>
    rw [List.chain'_range_succ]
    intro m hm
    exact strLe_of_lt (pdfName_lt_of_lt (m + 1) (m + 1 + 1) (by omega) (by omega))

lemma splitFiles_length {α : Type} : ∀ (pages : List α) (s : Nat),
    (splitFiles pages s).length = pages.length := by
  intro pages
  induction pages with
  | nil => intro s; rfl
  | cons p rest ih => intro s; simp [splitFiles, ih]

lemma splitFiles_snd {α : Type} : ∀ (pages : List α) (s : Nat),
    (splitFiles pages s).map Prod.snd = pages := by
  intro pages
  induction pages with
  | nil => intro s; rfl
  | cons p rest ih => intro s; simp [splitFiles, ih]

lemma splitFiles_fst {α : Type} : ∀ (pages : List α) (s : Nat),
    (splitFiles pages s).map Prod.fst = (List.range pages.length).map (fun k => pdfName (s + k)) := by
  intro pages
  induction pages with
  | nil => intro s; rfl
  | cons p rest ih =>
    intro s
    simp only [splitFiles, List.map_cons, List.length_cons, List.range_succ_eq_map,
      List.map_map]
    refine congrArg₂ List.cons (congrArg pdfName (by omega)) ?_
    rw [ih (s + 1)]
    refine List.map_congr_left ?_
    intro k _
    exact congrArg pdfName (by omega)

lemma tryLoop_fail : ∀ (r k : Nat) (fs : List (String × String)) (path : String)
    (api : Nat → NetResult),
    (∀ n, n < r → isSuccess (attemptOnce (api (k + n))) = false) →
    (tryLoop fs path api k r).fs = fs ∧ (tryLoop fs path api k r).ok = false ∧
      (tryLoop fs path api k r).calls = r ∧ (tryLoop fs path api k r).skipped = false := by
  intro r
  induction r with
  | zero => intro k fs path api _; simp [tryLoop]
  | succ r ih =>
    intro k fs path api h
    have h0 : isSuccess (attemptOnce (api k)) = false := by
      have := h 0 (by omega)
      simpa using this
    have hrest : ∀ n, n < r → isSuccess (attemptOnce (api (k + 1 + n))) = false := by
      intro n hn
      have := h (n + 1) (by omega)
      have harg : k + (n + 1) = k + 1 + n := by omega
      rwa [harg] at this
    have hr := ih (k + 1) fs path api hrest
    cases hA : attemptOnce (api k) with
    | success t => rw [hA] at h0; simp [isSuccess] at h0
    | apiError m => simp [tryLoop, hA, hr.1, hr.2.1, hr.2.2.1]
    | timeoutErr => simp [tryLoop, hA, hr.1, hr.2.1, hr.2.2.1]
    | exnErr m => simp [tryLoop, hA, hr.1, hr.2.1, hr.2.2.1]

lemma tryLoop_succ : ∀ (K k r : Nat) (fs : List (String × String)) (path : String)
    (api : Nat → NetResult) (t : String),
    K < r →
    (∀ n, n < K → isSuccess (attemptOnce (api (k + n))) = false) →
    attemptOnce (api (k + K)) = AttemptOutcome.success t →
    (tryLoop fs path api k r).fs = writeFs fs path t ∧ (tryLoop fs path api k r).ok = true ∧
      (tryLoop fs path api k r).calls = K + 1 ∧ (tryLoop fs path api k r).skipped = false := by
  intro K
  induction K with
  | zero =>
    intro k r fs path api t hKr _ hsucc
    cases r with
    | zero => omega
    | succ r =>
      have hA : attemptOnce (api k) = AttemptOutcome.success t := by simpa using hsucc
      simp [tryLoop, hA]
  | succ K ih =>
    intro k r fs path api t hKr hfail hsucc
    cases r with
    | zero => omega
    | succ r =>
      have h0 : isSuccess (attemptOnce (api k)) = false := by
        have := hfail 0 (by omega)
        simpa using this
      have hfail' : ∀ n, n < K → isSuccess (attemptOnce (api (k + 1 + n))) = false := by
        intro n hn
        have := hfail (n + 1) (by omega)
        have harg : k + (n + 1) = k + 1 + n := by omega
        rwa [harg] at this
      have hsucc' : attemptOnce (api (k + 1 + K)) = AttemptOutcome.success t := by
        have harg : k + (K + 1) = k + 1 + K := by omega
        rwa [harg] at hsucc
      have hr := ih (k + 1) r fs path api t (by omega) hfail' hsucc'
      cases hA : attemptOnce (api k) with
      | success u => rw [hA] at h0; simp [isSuccess] at h0
      | apiError m => simp [tryLoop, hA, hr.1, hr.2.1, hr.2.2.1]
      | timeoutErr => simp [tryLoop, hA, hr.1, hr.2.1, hr.2.2.1]
      | exnErr m => simp [tryLoop, hA, hr.1, hr.2.1, hr.2.2.1]

lemma tryLoop_skipped (fs : List (String × String)) (path : String) (api : Nat → NetResult) :
    ∀ (r k : Nat), (tryLoop fs path api k r).skipped = false := by
  intro r
  induction r with
  | zero => intro k; simp [tryLoop]
  | succ r ih =>
    intro k
    cases hA : attemptOnce (api k) <;> simp [tryLoop, hA, ih]

lemma process_skip (fs : List (String × String)) (path : String) (api : Nat → NetResult)
    (mr : Nat) (h : (lookupFs fs path).isSome = true) :
    process_single_file fs path api mr =
      { fs := fs, ok := true, calls := 0, skipped := true, waits := [] } := by
  simp [process_single_file, h]

lemma process_skipped_imp_ok (fs : List (String × String)) (path : String)
    (api : Nat → NetResult) (mr : Nat) :
    (process_single_file fs path api mr).skipped = true →
    (process_single_file fs path api mr).ok = true := by
  unfold process_single_file
  by_cases h : (lookupFs fs path).isSome = true
  · simp [h]
  · simp [h, tryLoop_skipped]

lemma runPages_skip (api : Nat → NetResult) (mr : Nat) :
    ∀ (files : List String) (fs : List (String × String)) (base : Nat),
    (∀ f ∈ files, (lookupFs fs (txtName f)).isSome = true) →
    runPages api mr files fs base =
      { fs := fs, successCount := files.length, failedCount := 0, calls := 0,
        statuses := files.map (fun f => (f, PageStatus.skipped)) } := by
  intro files
  induction files with
  | nil => intro fs base _; rfl
  | cons f rest ih =>
    intro fs base h
    have hf : (lookupFs fs (txtName f)).isSome = true := h f (by simp)
    have hp := process_skip fs (txtName f) (fun n => api (base + n)) mr hf
    have hrest := ih fs base (fun g hg => h g (by simp [hg]))
    simp [runPages, hp, hrest, pageStatus, Nat.add_comm]

lemma pageStatus_failed_iff (r : PageOutcome) (hso : r.skipped = true → r.ok = true) :
    (pageStatus r = PageStatus.failed ↔ r.ok = false) := by
  cases hs : r.skipped with
  | true => simp [pageStatus, hs, hso hs]
  | false => cases ho : r.ok <;> simp [pageStatus, hs, ho]

lemma runPages_counts (api : Nat → NetResult) (mr : Nat) :
    ∀ (files : List String) (fs : List (String × String)) (base : Nat),
    (runPages api mr files fs base).statuses.map Prod.fst = files ∧
    (runPages api mr files fs base).successCount + (runPages api mr files fs base).failedCount =
      files.length ∧
    (runPages api mr files fs base).successCount =
      (runPages api mr files fs base).statuses.countP (fun p => p.2 == PageStatus.skipped) +
        (runPages api mr files fs base).statuses.countP (fun p => p.2 == PageStatus.succeeded) ∧
    (runPages api mr files fs base).failedCount =
      (runPages api mr files fs base).statuses.countP (fun p => p.2 == PageStatus.failed) := by
  intro files
  induction files with
  | nil => intro fs base; simp [runPages]
  | cons f rest ih =>
    intro fs base
    have hso := process_skipped_imp_ok fs (txtName f) (fun n => api (base + n)) mr
    simp only [runPages, List.map_cons, List.countP_cons, List.length_cons]
    generalize hR : process_single_file fs (txtName f) (fun n => api (base + n)) mr = r at hso ⊢
    have hrest := ih r.fs (base + r.calls)
    have hcount :
        ((if r.ok then 1 else 0) =
            (if pageStatus r == PageStatus.skipped then 1 else 0) +
              (if pageStatus r == PageStatus.succeeded then 1 else 0)) ∧
          ((if r.ok then 0 else 1) = (if pageStatus r == PageStatus.failed then 1 else 0)) := by
      cases hs : r.skipped with
      | true => simp [pageStatus, hs, hso hs]
      | false => cases ho : r.ok <;> simp [pageStatus, hs, ho]
    refine ⟨?_, ?_, ?_, ?_⟩
    · simp [hrest.1]
    · obtain ⟨c1, c2⟩ := hcount
      have e1 := hrest.2.1
      cases ho : r.ok <;> simp [ho] at c1 c2 ⊢ <;> omega
    · omega
    · omega

lemma process_not_exists (fs : List (String × String)) (path : String) (api : Nat → NetResult)
    (mr : Nat) (h : lookupFs fs path = none) :
    process_single_file fs path api mr = tryLoop fs path api 0 mr := by
  simp [process_single_file, h]

lemma batch_process_eq (listing : List String) (fs : List (String × String))
    (api : Nat → NetResult) (mr : Nat) :
    batch_process listing fs api mr =
      if (discover listing).isEmpty then
        { fs := fs, noFiles := true, total := 0, successCount := 0, failedCount := 0,
          calls := 0, statuses := [] }
      else
        { fs := (runPages api mr (discover listing) fs 0).fs, noFiles := false,
          total := (discover listing).length,
          successCount := (runPages api mr (discover listing) fs 0).successCount,
          failedCount := (runPages api mr (discover listing) fs 0).failedCount,
          calls := (runPages api mr (discover listing) fs 0).calls,
          statuses := (runPages api mr (discover listing) fs 0).statuses } := rfl


/-- C1 (amended): a page whose output text file already exists is skipped by
`process_single_file` with no network call and an unchanged directory; and
provided every discovered page has an output file after the first batch run
(every page succeeded or was skipped), a second run over the first run's
output leaves the output files identical, marks every page skipped, and
makes zero network calls. -/
theorem resume_skip_and_second_run_idempotent :
    (∀ (fs : List (String × String)) (path : String) (api : Nat → NetResult) (mr : Nat),
       (lookupFs fs path).isSome = true →
       process_single_file fs path api mr =
         { fs := fs, ok := true, calls := 0, skipped := true, waits := [] }) ∧
    (∀ (listing : List String) (fs : List (String × String)) (api api2 : Nat → NetResult)
       (mr : Nat),
       (∀ f ∈ discover listing,
          (lookupFs ((batch_process listing fs api mr).fs) (txtName f)).isSome = true) →
       (batch_process listing ((batch_process listing fs api mr).fs) api2 mr).fs =
           (batch_process listing fs api mr).fs ∧
         (batch_process listing ((batch_process listing fs api mr).fs) api2 mr).calls = 0 ∧
         (batch_process listing ((batch_process listing fs api mr).fs) api2 mr).statuses =
           (discover listing).map (fun f => (f, PageStatus.skipped))) := by
  constructor
  · intro fs path api mr h
    exact process_skip fs path api mr h
  · intro listing fs api api2 mr h
    rw [batch_process_eq listing ((batch_process listing fs api mr).fs) api2 mr]
    by_cases hd : (discover listing).isEmpty = true
    · have hnil : discover listing = [] := by
        cases hl : discover listing with
        | nil => rfl
        | cons g gs => rw [hl] at hd; simp at hd
      simp [hd, hnil]
    · have hr := runPages_skip api2 mr (discover listing)
        ((batch_process listing fs api mr).fs) 0 h
      simp [hd, hr]

/-- C1 witness: a concrete skipped page and a concrete all-skipped second run. -/
theorem resume_skip_and_second_run_idempotent_witness :
    (process_single_file [("page_001.pdf.txt", "X")] "page_001.pdf.txt"
        (fun _ => NetResult.timeout) 3 =
      { fs := [("page_001.pdf.txt", "X")], ok := true, calls := 0, skipped := true,
        waits := [] }) ∧
    (batch_process ["page_001.pdf"]
        ((batch_process ["page_001.pdf"] [("page_001.pdf.txt", "X")]
          (fun _ => NetResult.timeout) 3).fs)
        (fun _ => NetResult.timeout) 3).calls = 0 :=
  ⟨resume_skip_and_second_run_idempotent.1 [("page_001.pdf.txt", "X")] "page_001.pdf.txt"
      (fun _ => NetResult.timeout) 3 (by decide),
   (resume_skip_and_second_run_idempotent.2 ["page_001.pdf"] [("page_001.pdf.txt", "X")]
      (fun _ => NetResult.timeout) (fun _ => NetResult.timeout) 3 (by decide)).2.1⟩

/-- C1 counterexample: with one page whose OCR times out on every attempt, the
first run leaves no output file, so the second run on the same unchanged
input makes three network calls and ends the page `failed`, not `skipped` —
the unconditional second-run claim is false. -/
theorem second_run_not_always_skipped :
    (batch_process ["a.pdf"] [] (fun _ => NetResult.timeout) 3).fs = [] ∧
    (batch_process ["a.pdf"] ((batch_process ["a.pdf"] [] (fun _ => NetResult.timeout) 3).fs)
        (fun _ => NetResult.timeout) 3).calls = 3 ∧
    (batch_process ["a.pdf"] ((batch_process ["a.pdf"] [] (fun _ => NetResult.timeout) 3).fs)
        (fun _ => NetResult.timeout) 3).statuses = [("a.pdf", PageStatus.failed)] := by
  decide

/-- C2: an attempt takes the success branch exactly when the parsed response
is a JSON body with `OCRExitCode == 1` and a non-empty `ParsedResults` list;
on success the first parsed text is written verbatim to the page's output
file and the page ends succeeded after exactly that one call. -/
theorem success_iff_exit_code_and_payload :
    (∀ net : NetResult,
       (∃ t, attemptOnce net = AttemptOutcome.success t) ↔
         (∃ j, net = NetResult.resp (OcrDict.json j) ∧ j.OCRExitCode = some 1 ∧
           j.ParsedResults ≠ [])) ∧
    (∀ (j : OcrJson) (t : String) (rest : List String),
       j.OCRExitCode = some 1 → j.ParsedResults = t :: rest →
       attemptOnce (NetResult.resp (OcrDict.json j)) = AttemptOutcome.success t) ∧
    (∀ (fs : List (String × String)) (path : String) (api : Nat → NetResult) (mr : Nat)
       (j : OcrJson) (t : String) (rest : List String),
       lookupFs fs path = none → 0 < mr →
       api 0 = NetResult.resp (OcrDict.json j) → j.OCRExitCode = some 1 →
       j.ParsedResults = t :: rest →
       process_single_file fs path api mr =
         { fs := writeFs fs path t, ok := true, calls := 1, skipped := false, waits := [] }) := by
  refine ⟨?_, ?_, ?_⟩
  · intro net
    constructor
    · rintro ⟨t, h⟩
      cases net with
      | timeout => simp [attemptOnce] at h
      | exn m => simp [attemptOnce] at h
      | resp d =>
        cases d with
        | invalid raw => simp [attemptOnce] at h
        | json j =>
          by_cases hc : j.OCRExitCode = some 1
          · cases hp : j.ParsedResults with
            | nil => rw [attemptOnce] at h; simp [hc, hp] at h
            | cons u us => exact ⟨j, rfl, hc, by simp [hp]⟩
          · rw [attemptOnce] at h; simp [hc] at h
    · rintro ⟨j, rfl, hc, hne⟩
      cases hp : j.ParsedResults with
      | nil => exact absurd hp hne
      | cons t us => exact ⟨t, by rw [attemptOnce]; simp [hc, hp]⟩
  · intro j t rest hc hp
    rw [attemptOnce]
    simp [hc, hp]
  · intro fs path api mr j t rest hnone hmr hapi hc hp
    cases mr with
    | zero => omega
    | succ m =>
      rw [process_not_exists fs path api (m + 1) hnone]
      have hA : attemptOnce (api 0) = AttemptOutcome.success t := by
        rw [hapi, attemptOnce]; simp [hc, hp]
      simp [tryLoop, hA]

/-- C2 witness: a concrete successful attempt writes the payload verbatim. -/
theorem success_iff_exit_code_and_payload_witness :
    process_single_file [] "page_001.pdf.txt"
        (fun _ => NetResult.resp (OcrDict.json ⟨some 1, ["你好世界"], none⟩)) 3 =
      { fs := [("page_001.pdf.txt", "你好世界")], ok := true, calls := 1, skipped := false,
        waits := [] } := by
  have h := success_iff_exit_code_and_payload.2.2 [] "page_001.pdf.txt"
    (fun _ => NetResult.resp (OcrDict.json ⟨some 1, ["你好世界"], none⟩)) 3
    ⟨some 1, ["你好世界"], none⟩ "你好世界" [] rfl (by decide) rfl rfl rfl
  simpa using h

/-- C3: a page with no pre-existing output whose every attempt fails ends with
`process_single_file` returning failure after exactly `max_retries` calls,
with the output directory unchanged (no text file created) and terminal
state `failed`; and the batch's status list always covers every discovered
page in order (a per-page failure never aborts the run) with the failed
count equal to the number of `failed` pages. -/
theorem exhausted_retries_failure_isolated :
    (∀ (fs : List (String × String)) (path : String) (api : Nat → NetResult) (mr : Nat),
       lookupFs fs path = none →
       (∀ n, n < mr → isSuccess (attemptOnce (api n)) = false) →
       (process_single_file fs path api mr).ok = false ∧
         (process_single_file fs path api mr).fs = fs ∧
         (process_single_file fs path api mr).calls = mr ∧
         pageStatus (process_single_file fs path api mr) = PageStatus.failed) ∧
    (∀ (api : Nat → NetResult) (mr : Nat) (files : List String)
       (fs : List (String × String)) (base : Nat),
       (runPages api mr files fs base).statuses.map Prod.fst = files ∧
         (runPages api mr files fs base).failedCount =
           (runPages api mr files fs base).statuses.countP
             (fun p => p.2 == PageStatus.failed)) := by
  constructor
  · intro fs path api mr hnone hfail
    rw [process_not_exists fs path api mr hnone]
    have h := tryLoop_fail mr 0 fs path api (fun n hn => by simpa using hfail n hn)
    refine ⟨h.2.1, h.1, h.2.2.1, ?_⟩
    rw [pageStatus, if_neg, if_neg] <;> simp [h.2.1, h.2.2.2]
  · intro api mr files fs base
    have h := runPages_counts api mr files fs base
    exact ⟨h.1, h.2.2.2⟩

/-- C3 witness: three concrete timeouts leave the page failed with no file. -/
theorem exhausted_retries_failure_isolated_witness :
    (process_single_file [] "page_001.pdf.txt" (fun _ => NetResult.timeout) 3).ok = false ∧
    (process_single_file [] "page_001.pdf.txt" (fun _ => NetResult.timeout) 3).fs = [] ∧
    (process_single_file [] "page_001.pdf.txt" (fun _ => NetResult.timeout) 3).calls = 3 ∧
    pageStatus (process_single_file [] "page_001.pdf.txt" (fun _ => NetResult.timeout) 3) =
      PageStatus.failed :=
  exhausted_retries_failure_isolated.1 [] "page_001.pdf.txt" (fun _ => NetResult.timeout) 3
    rfl (by decide)

/-- C4: a page with no pre-existing output whose API fails exactly `K` times
with `K < max_retries` and then succeeds ends `succeeded`, with exactly
`K + 1` network calls made for it, the successful text written. -/
theorem k_failures_then_success :
    ∀ (fs : List (String × String)) (path : String) (api : Nat → NetResult) (mr K : Nat)
      (t : String),
      K < mr → lookupFs fs path = none →
      (∀ n, n < K → isSuccess (attemptOnce (api n)) = false) →
      attemptOnce (api K) = AttemptOutcome.success t →
      (process_single_file fs path api mr).ok = true ∧
        (process_single_file fs path api mr).calls = K + 1 ∧
        (process_single_file fs path api mr).fs = writeFs fs path t ∧
        pageStatus (process_single_file fs path api mr) = PageStatus.succeeded := by
  intro fs path api mr K t hK hnone hfail hsucc
  rw [process_not_exists fs path api mr hnone]
  have h := tryLoop_succ K 0 mr fs path api t hK
    (fun n hn => by simpa using hfail n hn) (by simpa using hsucc)
  refine ⟨h.2.1, h.2.2.1, h.1, ?_⟩
  rw [pageStatus, if_neg, if_pos h.2.1]
  simp [h.2.2.2]

/-- C4 witness: one timeout then a success gives two calls and success. -/
theorem k_failures_then_success_witness :
    (process_single_file [] "page_001.pdf.txt"
        (fun n => if n = 0 then NetResult.timeout
          else NetResult.resp (OcrDict.json ⟨some 1, ["T"], none⟩)) 3).ok = true ∧
    (process_single_file [] "page_001.pdf.txt"
        (fun n => if n = 0 then NetResult.timeout
          else NetResult.resp (OcrDict.json ⟨some 1, ["T"], none⟩)) 3).calls = 2 ∧
    (process_single_file [] "page_001.pdf.txt"
        (fun n => if n = 0 then NetResult.timeout
          else NetResult.resp (OcrDict.json ⟨some 1, ["T"], none⟩)) 3).fs =
      writeFs [] "page_001.pdf.txt" "T" ∧
    pageStatus (process_single_file [] "page_001.pdf.txt"
        (fun n => if n = 0 then NetResult.timeout
          else NetResult.resp (OcrDict.json ⟨some 1, ["T"], none⟩)) 3) =
      PageStatus.succeeded :=
  k_failures_then_success [] "page_001.pdf.txt"
    (fun n => if n = 0 then NetResult.timeout
      else NetResult.resp (OcrDict.json ⟨some 1, ["T"], none⟩)) 3 1 "T"
    (by decide) rfl (by decide) (by decide)

/-- C5 (amended): for pages numbered up to 999 the splitter's filenames
compare in page order under the lexicographic string order used by the
driver's and merger's `sorted`, and sorting the filename list of an
`N`-page split (`N ≤ 999`) leaves it unchanged; beyond page 999 the
3-digit padding is exceeded and the equivalence fails. -/
theorem filename_order_matches_page_order_up_to_999 :
    (∀ i j : Nat, i < j → j ≤ 999 → strLt (pdfName i) (pdfName j) = true) ∧
    (∀ N : Nat, N ≤ 999 →
       sortFiles ((List.range N).map (fun k => pdfName (k + 1))) =
         (List.range N).map (fun k => pdfName (k + 1))) :=
  ⟨pdfName_lt_of_lt, fun N hN => sortFiles_of_chain _ (chain_pageNames N hN)⟩

/-- C5 witness: concrete instances of both conjuncts. -/
theorem filename_order_matches_page_order_up_to_999_witness :
    strLt (pdfName 3) (pdfName 12) = true ∧
    sortFiles ((List.range 3).map (fun k => pdfName (k + 1))) =
      (List.range 3).map (fun k => pdfName (k + 1)) :=
  ⟨filename_order_matches_page_order_up_to_999.1 3 12 (by decide) (by decide),
   filename_order_matches_page_order_up_to_999.2 3 (by decide)⟩

/-- C5 counterexample: the claim fails at 1000 source pages — `page_1000.pdf`
sorts lexicographically before `page_999.pdf`, so lexicographic filename
order is not page order for all N. -/
theorem filename_order_breaks_at_page_1000 :
    999 < 1000 ∧ strLt (pdfName 999) (pdfName 1000) = false ∧
    strLt (pdfName 1000) (pdfName 999) = true ∧
    sortFiles [pdfName 999, pdfName 1000] = [pdfName 1000, pdfName 999] := by
  decide

/-- C6: on a response with the engine success code but an empty parsed-text
list, the code raises `IndexError("list index out of range")`, which the
generic exception handler catches — the attempt is retried with the flat
5-second exception back-off and no output file is written, but it is NOT
treated as the malformed-response API error carrying the raw body (that
branch, shown for contrast on a non-JSON body, logs
"Invalid JSON response" and uses the escalating 2s,4s back-off). -/
theorem empty_parsed_results_generic_exception :
    attemptOnce (NetResult.resp (OcrDict.json ⟨some 1, [], none⟩)) =
      AttemptOutcome.exnErr "list index out of range" ∧
    process_single_file [] "page_001.pdf.txt"
        (fun _ => NetResult.resp (OcrDict.json ⟨some 1, [], none⟩)) 3 =
      { fs := [], ok := false, calls := 3, skipped := false, waits := [5, 5] } ∧
    process_single_file [] "page_001.pdf.txt"
        (fun _ => NetResult.resp (OcrDict.invalid "<html>error</html>")) 3 =
      { fs := [], ok := false, calls := 3, skipped := false, waits := [2, 4] } ∧
    attemptOnce (NetResult.resp (OcrDict.invalid "<html>error</html>")) =
      AttemptOutcome.apiError "Invalid JSON response" := by
  decide

/-- C7: merging the directory with exactly `page_001.pdf.txt = "A"` and
`page_002.pdf.txt = "B"` yields, in plain mode, exactly
`"A\n\nB\n\n"`, and in annotated mode a banner line containing each
source filename before that file's content, in the same order. -/
theorem merge_two_pages_plain_and_annotated :
    merge_ocr_results_clean [("page_001.pdf.txt", "A"), ("page_002.pdf.txt", "B")] =
      some ("A\n\nB\n\n", 2) ∧
    merge_ocr_results [("page_001.pdf.txt", "A"), ("page_002.pdf.txt", "B")] =
      some (("\n" ++ eqBanner ++ "\n") ++ ("📄 文件: page_001.pdf.txt\n") ++ (eqBanner ++ "\n")
          ++ "A" ++ ("\n" ++ eqBanner ++ "\n") ++ ("📄 文件: page_002.pdf.txt\n")
          ++ (eqBanner ++ "\n") ++ "B", 2) := by
  decide

/-- C8: on a directory listing with no `.pdf` entry the driver reports the
no-files condition and returns with the output directory untouched and zero
network calls; on a directory with no `.txt` entry both merger modes
return without writing anything. -/
theorem no_files_found_no_writes :
    (∀ (listing : List String) (fs : List (String × String)) (api : Nat → NetResult) (mr : Nat),
       listing.filter (fun f => strEndsWith f ".pdf") = [] →
       batch_process listing fs api mr =
         { fs := fs, noFiles := true, total := 0, successCount := 0, failedCount := 0,
           calls := 0, statuses := [] }) ∧
    (∀ dir : List (String × String),
       (dir.map Prod.fst).filter (fun f => strEndsWith f ".txt") = [] →
       merge_ocr_results dir = none ∧ merge_ocr_results_clean dir = none) := by
  constructor
  · intro listing fs api mr h
    rw [batch_process_eq]
    have hd : discover listing = [] := by rw [discover, h]; rfl
    simp [hd]
  · intro dir h
    have hd : discoverTxt dir = [] := by rw [discoverTxt, h]; rfl
    constructor
    · rw [merge_ocr_results]; simp [hd]
    · rw [merge_ocr_results_clean]; simp [hd]

/-- C8 witness: a concrete non-matching listing and directory. -/
theorem no_files_found_no_writes_witness :
    batch_process ["page_001.doc"] [] (fun _ => NetResult.timeout) 3 =
      { fs := [], noFiles := true, total := 0, successCount := 0, failedCount := 0,
        calls := 0, statuses := [] } ∧
    merge_ocr_results [("notes.md", "x")] = none ∧
    merge_ocr_results_clean [("notes.md", "x")] = none :=
  ⟨no_files_found_no_writes.1 ["page_001.doc"] [] (fun _ => NetResult.timeout) 3 (by decide),
   no_files_found_no_writes.2 [("notes.md", "x")] (by decide)⟩

/-- C9: for every N-page input the splitter marks the output directory
created, writes exactly one file per input page — named `page_XXX.pdf`
with the zero-padded 1-based page number, in input page order, holding
that page's content — and returns N. -/
theorem splitter_one_file_per_page :
    ∀ (α : Type) (pages : List α),
      (split_pdf pages).dirCreated = true ∧
        (split_pdf pages).total = pages.length ∧
        (split_pdf pages).files.length = pages.length ∧
        (split_pdf pages).files.map Prod.snd = pages ∧
        (split_pdf pages).files.map Prod.fst =
          (List.range pages.length).map (fun k => pdfName (k + 1)) := by
  intro α pages
  refine ⟨rfl, rfl, splitFiles_length pages 1, splitFiles_snd pages 1, ?_⟩
  show (splitFiles pages 1).map Prod.fst = (List.range pages.length).map (fun k => pdfName (k + 1))
  rw [splitFiles_fst pages 1]
  exact List.map_congr_left (fun k _ => congrArg pdfName (by omega))

/-- C10: in every batch run the succeeded and failed counters partition the
discovered pages — their sum is the total — and the succeeded counter
counts exactly the skipped pages plus the succeeded pages (a page skipped
for an existing output is tallied as a success; there is no separate
skipped counter), while the failed counter counts exactly the failed
pages. -/
theorem summary_counters_partition_pages :
    ∀ (listing : List String) (fs : List (String × String)) (api : Nat → NetResult) (mr : Nat),
      (batch_process listing fs api mr).successCount +
          (batch_process listing fs api mr).failedCount =
        (batch_process listing fs api mr).total ∧
      (batch_process listing fs api mr).successCount =
        (batch_process listing fs api mr).statuses.countP
            (fun p => p.2 == PageStatus.skipped) +
          (batch_process listing fs api mr).statuses.countP
            (fun p => p.2 == PageStatus.succeeded) ∧
      (batch_process listing fs api mr).failedCount =
        (batch_process listing fs api mr).statuses.countP
          (fun p => p.2 == PageStatus.failed) := by
  intro listing fs api mr
  rw [batch_process_eq]
  by_cases hd : (discover listing).isEmpty = true
  · simp [hd]
  · have h := runPages_counts api mr (discover listing) fs 0
    simp only [hd, if_neg, Bool.false_eq_true, not_false_iff]
    simpa using ⟨h.2.1, h.2.2.1, h.2.2.2⟩
